import Mathlib

/-!
Verification development for the arb-token-bridge networks-and-signers
resolution machine (src/unnamed/part_000) and the executed-withdrawal
card balance logic
(src/packages/arb-token-bridge-ui/src/components/TransferPanel/WithdrawalCardExecuted.tsx).

The TypeScript source is shallowly embedded: React state updates become
explicit result values, promise chains become total functions with
explicit fall-through to the attached catch handlers, and the external
@arbitrum/sdk registry functions (addCustomNetwork, getL1Network,
getL2Network), which are not part of this repository's source, are
modelled from the specification's contracts for them.
-/

namespace ArbTokenBridge

/-- Chain descriptor for a base (L1) chain, mirroring the `L1Network`
shape used by the custom-network literal in part_000 lines 248-258. -/
structure L1Network where
  blockTime : Nat
  chainID : Nat
  explorerUrl : String
  isCustom : Bool
  name : String
  partnerChainIDs : List Nat
  rpcURL : String
deriving DecidableEq

/-- Bridge contract addresses of a rollup descriptor
(part_000 lines 262-268). -/
structure EthBridge where
  bridge : String
  inbox : String
  outbox : String
  rollup : String
  sequencerInbox : String
deriving DecidableEq

/-- Token-bridge contract addresses of a rollup descriptor
(part_000 lines 276-291). -/
structure TokenBridge where
  l1CustomGateway : String
  l1ERC20Gateway : String
  l1GatewayRouter : String
  l1MultiCall : String
  l1ProxyAdmin : String
  l1Weth : String
  l1WethGateway : String
  l2CustomGateway : String
  l2ERC20Gateway : String
  l2GatewayRouter : String
  l2Multicall : String
  l2ProxyAdmin : String
  l2Weth : String
  l2WethGateway : String
deriving DecidableEq

/-- Chain descriptor for a rollup (L2) chain, mirroring the `L2Network`
shape used by the custom-network literal in part_000 lines 259-292. -/
structure L2Network where
  chainID : Nat
  confirmPeriodBlocks : Nat
  ethBridge : EthBridge
  explorerUrl : String
  isArbitrum : Bool
  isCustom : Bool
  name : String
  partnerChainID : Nat
  rpcURL : String
  retryableLifetimeSeconds : Nat
  tokenBridge : TokenBridge
deriving DecidableEq

/-- The fixed custom L1 descriptor registered by `update`
(part_000 lines 248-258 and, identically, lines 327-337). -/
def localEthNetwork : L1Network :=
  { blockTime := 10
  , chainID := 1337
  , explorerUrl := ""
  , isCustom := true
  , name := "EthLocal"
  , partnerChainIDs := [412346]
  , rpcURL := "http://localhost:8545" }

/-- The fixed custom L2 descriptor registered by `update`
(part_000 lines 259-292 and, identically, lines 338-371). -/
def localArbNetwork : L2Network :=
  { chainID := 412346
  , confirmPeriodBlocks := 20
  , ethBridge :=
    { bridge := "0xcaf1ded82e70c5af3d6585a1dcc3ff8f2ea42794"
    , inbox := "0xc2c8f6ec5fcb9a9aeea4116a521594bf40ab6408"
    , outbox := "0x86B30E87F64025085c7853E64355B97DE5D13393"
    , rollup := "0x71b4f5764d732ddd5e34a9d60b7bf9f87905e7ed"
    , sequencerInbox := "0x8cfc0044df41af12d4cbb6fd1c71aceafa503900" }
  , explorerUrl := ""
  , isArbitrum := true
  , isCustom := true
  , name := "ArbLocal"
  , partnerChainID := 1337
  , rpcURL := "http://localhost:8547"
  , retryableLifetimeSeconds := 604800
  , tokenBridge :=
    { l1CustomGateway := "0xDe67138B609Fbca38FcC2673Bbc5E33d26C5B584"
    , l1ERC20Gateway := "0x0Bdb0992B3872DF911260BfB60D72607eb22d5d4"
    , l1GatewayRouter := "0x4535771b8D5C43100f126EdACfEc7eb60d391312"
    , l1MultiCall := "0x36BeF5fD671f2aA8686023dE4797A7dae3082D5F"
    , l1ProxyAdmin := "0xF7818cd5f5Dc379965fD1C66b36C0C4D788E7cDB"
    , l1Weth := "0x24067223381F042fF36fb87818196dB4D2C56E9B"
    , l1WethGateway := "0xBa3d12E370a4b592AAF0CA1EF09971D196c27aAd"
    , l2CustomGateway := "0xF0B003F9247f2DC0e874710eD55e55f8C63B14a3"
    , l2ERC20Gateway := "0x78a6dC8D17027992230c112432E42EC3d6838d74"
    , l2GatewayRouter := "0x7b650845242a96595f3a9766D4e8e5ab0887936A"
    , l2Multicall := "0x9b890cA9dE3D317b165afA7DFb8C65f2e4c95C20"
    , l2ProxyAdmin := "0x7F85fB7f42A0c0D40431cc0f7DFDf88be6495e67"
    , l2Weth := "0x36BeF5fD671f2aA8686023dE4797A7dae3082D5F"
    , l2WethGateway := "0x2E76efCC2518CB801E5340d5f140B1c1911b4F4B" } }

/-- The process-wide network registry of @arbitrum/sdk: a mapping from
chain identifier to descriptor for each side. The sdk is not part of
this repository's source; the registry state is modelled from the spec
(section 4.1). -/
structure NetworkRegistry where
  l1Networks : Nat → Option L1Network
  l2Networks : Nat → Option L2Network

/-- Modelled from the spec: `addCustomNetwork` of @arbitrum/sdk (called
at part_000 lines 247 and 326 but not itself under src/). Spec section
4.1: registration "idempotently adds a base/rollup descriptor pair to
process-wide registry state if not already present (matched by chain
identifier); re-registration with identical identifiers and differing
contents is allowed and overwrites" - an upsert keyed by chain id on
each side. -/
def addCustomNetwork (reg : NetworkRegistry)
    (customL1Network : L1Network) (customL2Network : L2Network) :
    NetworkRegistry :=
  { l1Networks := fun id =>
      if id = customL1Network.chainID then some customL1Network
      else reg.l1Networks id
  , l2Networks := fun id =>
      if id = customL2Network.chainID then some customL2Network
      else reg.l2Networks id }

/-- Modelled from the spec: `getL1Network(provider, selectedL2ChainId)`
of @arbitrum/sdk (called at part_000 lines 242 and 380, not under
src/). Spec section 4.2 step 3: interpreting the connection as a base
chain "succeeds only if the wallet's reported chain identifier matches
a known/registerable base descriptor that partners with the requested
rollup". The provider argument is represented by the chain id it
reports. -/
def getL1Network (reg : NetworkRegistry) (providerChainId : Nat)
    (selectedL2ChainId : Nat) : Option L1Network :=
  match reg.l1Networks providerChainId with
  | some l1Network =>
      if selectedL2ChainId ∈ l1Network.partnerChainIDs then some l1Network
      else none
  | none => none

/-- Modelled from the spec: `getL2Network(provider)` of @arbitrum/sdk
(called at part_000 lines 295 and 374, not under src/): looks the
provider's reported chain id up among registered rollup descriptors. -/
def getL2Network (reg : NetworkRegistry) (providerChainId : Nat) :
    Option L2Network :=
  reg.l2Networks providerChainId

/-- `UseNetworksAndSignersStatus` (part_000 lines 104-109). -/
inductive UseNetworksAndSignersStatus where
  | LOADING
  | NOT_CONNECTED
  | NOT_SUPPORTED
  | CONNECTED
deriving DecidableEq

/-- `defaultStatus` (part_000 lines 116-119): `NOT_CONNECTED` when
`typeof window.web3 === 'undefined'`, otherwise `LOADING`. -/
def defaultStatus (web3Undefined : Bool) : UseNetworksAndSignersStatus :=
  if web3Undefined then .NOT_CONNECTED else .LOADING

/-- A provider handle: either the wallet's own injected `Web3Provider`
(identified by the chain id it reports) or a freshly constructed
`JsonRpcProvider` over an endpoint URL, as distinguished throughout
`update` (part_000 lines 245, 300, 379, 385). -/
inductive Provider where
  | web3 (chainId : Nat)
  | jsonRpc (url : String)
deriving DecidableEq

/-- A signer handle: `provider.getSigner(0)` (index form, part_000
lines 306 and 398) or `provider.getSigner(address)` (address form,
part_000 lines 311 and 393). -/
inductive Signer where
  | byIndex (provider : Provider) (index : Nat)
  | byAddress (provider : Provider) (address : String)
deriving DecidableEq

/-- One side of the connected result: `{ network, signer, provider }`
(part_000 lines 127-128). -/
structure SideHandles (Network : Type) where
  network : Network
  signer : Signer
  provider : Provider
deriving DecidableEq

/-- Payload of `UseNetworksAndSignersConnectedResult`
(part_000 lines 125-130), minus the fixed `CONNECTED` status tag. -/
structure ConnectedPayload where
  l1 : SideHandles L1Network
  l2 : SideHandles L2Network
  isConnectedToArbitrum : Bool
deriving DecidableEq

/-- `UseNetworksAndSignersResult` (part_000 lines 132-134): a
loading-or-error status, or the connected payload. -/
inductive UseNetworksAndSignersResult where
  | loadingOrError (status : UseNetworksAndSignersStatus)
  | connected (payload : ConnectedPayload)
deriving DecidableEq

/-- The discriminating status of a result. -/
def UseNetworksAndSignersResult.status :
    UseNetworksAndSignersResult → UseNetworksAndSignersStatus
  | .loadingOrError s => s
  | .connected _ => .CONNECTED

/-- The `isConnectedToArbitrum` orientation flag of a result, when
connected. -/
def UseNetworksAndSignersResult.orientation :
    UseNetworksAndSignersResult → Option Bool
  | .loadingOrError _ => none
  | .connected p => some p.isConnectedToArbitrum

/-- Ambient configuration from `../util/networks` (imported at part_000
line 100, not under src/): the static default-rollup mapping and the
per-chain RPC endpoint map, modelled as abstract maps. -/
structure Env where
  chainIdToDefaultL2ChainId : Nat → Option Nat
  rpcURLs : Nat → String

/-- part_000 lines 231-240: take the caller-supplied
`selectedL2ChainId` if present, otherwise derive a default from the
provider's chain id via `chainIdToDefaultL2ChainId`. -/
def resolveSelectedL2ChainId (env : Env) (selectedL2ChainId : Option Nat)
    (providerChainId : Nat) : Option Nat :=
  match selectedL2ChainId with
  | some sel => some sel
  | none => env.chainIdToDefaultL2ChainId providerChainId

/-- The `.catch` handler of `update` (part_000 lines 317-407): the
wallet is interpreted as a rollup-side connection. The handler first
requires the provider's reported chain id to equal the selected rollup
id (lines 319-323), then registers the fixed custom pair (line 326),
then resolves the rollup descriptor from the wallet's chain id and the
base descriptor from its partner id (lines 374-383); any failure in
that chain lands in the inner `.catch` (lines 404-406) and publishes
`NOT_SUPPORTED`. Returns the updated registry and the published
result. -/
def updateCatchBranch (env : Env) (reg : NetworkRegistry)
    (selectedL2ChainId : Nat) (providerChainId : Nat) (address : String) :
    NetworkRegistry × UseNetworksAndSignersResult :=
  if providerChainId ≠ selectedL2ChainId then
    (reg, .loadingOrError .NOT_SUPPORTED)
  else
    let reg1 := addCustomNetwork reg localEthNetwork localArbNetwork
    match getL2Network reg1 providerChainId with
    | some l2Network =>
        let l1NetworkChainId := l2Network.partnerChainID
        let l1Provider := Provider.jsonRpc (env.rpcURLs l1NetworkChainId)
        match getL1Network reg1 l1NetworkChainId selectedL2ChainId with
        | some l1Network =>
            let l2Provider := Provider.jsonRpc (env.rpcURLs l2Network.chainID)
            (reg1, .connected
              { l1 :=
                { network := l1Network
                , signer := .byAddress l1Provider address
                , provider := l1Provider }
              , l2 :=
                { network := l2Network
                , signer := .byIndex (.web3 providerChainId) 0
                , provider := l2Provider }
              , isConnectedToArbitrum := true })
        | none => (reg1, .loadingOrError .NOT_SUPPORTED)
    | none => (reg1, .loadingOrError .NOT_SUPPORTED)

/-- `update` (part_000 lines 227-410) as a function from the wallet
connection's observables to the published result, threading the
process-wide registry. The wallet's `Web3Provider` is represented by
the chain id it reports (line 229). The `.then` branch (lines 242-316)
interprets the wallet as a base-side connection: a fresh
`JsonRpcProvider` is built for the selected rollup's endpoint, the
fixed custom pair is registered, the rollup descriptor is fetched
through that provider, and the connected result with
`isConnectedToArbitrum := false` is published; if `getL1Network`
rejects, or a later step of the `.then` callback rejects, control
moves to the `.catch` handler (`updateCatchBranch`). -/
def update (env : Env) (reg : NetworkRegistry)
    (selectedL2ChainId : Option Nat) (providerChainId : Nat)
    (address : String) : NetworkRegistry × UseNetworksAndSignersResult :=
  match resolveSelectedL2ChainId env selectedL2ChainId providerChainId with
  | none => (reg, .loadingOrError .NOT_SUPPORTED)
  | some sel =>
    match getL1Network reg providerChainId sel with
    | some l1Network =>
        let l2Provider := Provider.jsonRpc (env.rpcURLs sel)
        let reg1 := addCustomNetwork reg localEthNetwork localArbNetwork
        match getL2Network reg1 sel with
        | some l2Network =>
            let l1Provider := Provider.jsonRpc (env.rpcURLs l1Network.chainID)
            (reg1, .connected
              { l1 :=
                { network := l1Network
                , signer := .byIndex (.web3 providerChainId) 0
                , provider := l1Provider }
              , l2 :=
                { network := l2Network
                , signer := .byAddress l2Provider address
                , provider := l2Provider }
              , isConnectedToArbitrum := false })
        | none => updateCatchBranch env reg1 sel providerChainId address
    | none => updateCatchBranch env reg sel providerChainId address

/-- The disconnect effect (part_000 lines 200-206): when the current
result is `CONNECTED` and the wallet account has become `undefined`,
the provider resets the result to `NOT_CONNECTED`; otherwise the
result is left untouched. -/
def resetOnDisconnect (account : Option String)
    (result : UseNetworksAndSignersResult) : UseNetworksAndSignersResult :=
  if result.status = .CONNECTED ∧ account = none then
    .loadingOrError .NOT_CONNECTED
  else result

/-- The guard of the resolution effect (part_000 lines 412-417):
`update` is invoked only when `provider`, `account` and `network` are
all present. -/
def updateEffectRuns (provider : Option Provider) (account : Option String)
    (network : Option Nat) : Bool :=
  provider.isSome && account.isSome && network.isSome

/-- `useNetworksAndSigners` (part_000 lines 140-150): reads the context
value; throws when no provider installed a value, returns the value
otherwise. The throw is modelled as `Except.error` carrying the thrown
message. -/
def useNetworksAndSigners (context : Option ConnectedPayload) :
    Except String ConnectedPayload :=
  match context with
  | none => .error
      "The useNetworksAndSigners Hook must only be used inside NetworksAndSignersContext.Provider."
  | some value => .ok value

/-- An observable event of the resolution machine: an `update`
invocation starts a resolution attempt (tagged for identification
only), or an attempt's promise chain settles and its callback
publishes the attempt's computed result. -/
inductive ResolutionEvent where
  | start (attempt : Nat)
  | complete (attempt : Nat) (result : UseNetworksAndSignersResult)
deriving DecidableEq

/-- How the published result evolves under one event: every settling
callback of `update` calls `setResult` with its own computed result
unconditionally — part_000 lines 302, 321, 389 and 405 consult no
sequence number or latest-request marker before publishing (the
`latestResult` ref bound at line 197 is never read inside `update`),
so a completion always overwrites, and starting an attempt publishes
nothing. -/
def publishStep (published : UseNetworksAndSignersResult) :
    ResolutionEvent → UseNetworksAndSignersResult
  | .start _ => published
  | .complete _ result => result

/-- The result published after a sequence of start/completion events,
beginning from an initial result. -/
def publishTrace (init : UseNetworksAndSignersResult)
    (events : List ResolutionEvent) : UseNetworksAndSignersResult :=
  events.foldl publishStep init

/-- A balance cell of the app-state balances
(`balance` may itself be null). -/
structure TokenBalanceEntry where
  balance : Option Nat
deriving DecidableEq

/-- `arbTokenBridge.balances`: the eth cell plus the per-token-address
erc20 map (an absent key yields `undefined` in the source, `none`
here). -/
structure BridgeBalances where
  eth : TokenBalanceEntry
  erc20 : String → Option TokenBalanceEntry

/-- The `arbTokenBridge` app-state object, reduced to the field the
balance computation reads; `balances` may be absent. -/
structure ArbTokenBridgeState where
  balances : Option BridgeBalances

/-- The fields of `MergedTransaction` read by the balance computation
in WithdrawalCardExecuted.tsx. -/
structure MergedTransaction where
  asset : String
  tokenAddress : Option String

/-- The `balance` memo of `WithdrawalCardExecuted`
(WithdrawalCardExecuted.tsx lines 27-41): null when `arbTokenBridge`
or its `balances` is absent; the eth balance when `tx.asset` is
`'eth'`; null when `tx.tokenAddress` is missing; otherwise
`balances.erc20[tx.tokenAddress]?.balance`. A `none` value renders the
loading spinner (lines 67-74) instead of a formatted balance. -/
def withdrawalCardExecutedBalance (arbTokenBridge : Option ArbTokenBridgeState)
    (tx : MergedTransaction) : Option Nat :=
  match arbTokenBridge with
  | none => none
  | some bridge =>
    match bridge.balances with
    | none => none
    | some balances =>
      if tx.asset = "eth" then balances.eth.balance
      else
        match tx.tokenAddress with
        | none => none
        | some tokenAddress =>
          (balances.erc20 tokenAddress).bind (fun entry => entry.balance)

/-- A registry with no networks registered. -/
def emptyRegistry : NetworkRegistry :=
  { l1Networks := fun _ => none, l2Networks := fun _ => none }

/-- Sample base descriptor used to evaluate the theorems on concrete
inputs. -/
def sampleL1Network : L1Network :=
  { blockTime := 13
  , chainID := 1
  , explorerUrl := ""
  , isCustom := true
  , name := "BaseOne"
  , partnerChainIDs := [2]
  , rpcURL := "http://localhost:9545" }

/-- Sample rollup descriptor partnered with `sampleL1Network`. -/
def sampleL2Network : L2Network :=
  { chainID := 2
  , confirmPeriodBlocks := 30
  , ethBridge :=
    { bridge := "0xb1", inbox := "0xb2", outbox := "0xb3"
    , rollup := "0xb4", sequencerInbox := "0xb5" }
  , explorerUrl := ""
  , isArbitrum := true
  , isCustom := true
  , name := "RollupTwo"
  , partnerChainID := 1
  , rpcURL := "http://localhost:9547"
  , retryableLifetimeSeconds := 604800
  , tokenBridge :=
    { l1CustomGateway := "0xa1", l1ERC20Gateway := "0xa2"
    , l1GatewayRouter := "0xa3", l1MultiCall := "0xa4"
    , l1ProxyAdmin := "0xa5", l1Weth := "0xa6", l1WethGateway := "0xa7"
    , l2CustomGateway := "0xa8", l2ERC20Gateway := "0xa9"
    , l2GatewayRouter := "0xaa", l2Multicall := "0xab"
    , l2ProxyAdmin := "0xac", l2Weth := "0xad", l2WethGateway := "0xae" } }

/-- A registry seeded with exactly the sample pair. -/
def sampleRegistry : NetworkRegistry :=
  { l1Networks := fun id => if id = 1 then some sampleL1Network else none
  , l2Networks := fun id => if id = 2 then some sampleL2Network else none }

/-- Sample ambient configuration whose RPC map agrees with the sample
descriptors' endpoints. -/
def sampleEnv : Env :=
  { chainIdToDefaultL2ChainId := fun _ => none
  , rpcURLs := fun id =>
      if id = 1 then "http://localhost:9545"
      else if id = 2 then "http://localhost:9547"
      else "" }

/-- Sample connected payload used to evaluate the disconnect effect on
a concrete connected state. -/
def sampleConnectedPayload : ConnectedPayload :=
  { l1 :=
    { network := sampleL1Network
    , signer := .byIndex (.web3 1) 0
    , provider := .jsonRpc "http://localhost:9545" }
  , l2 :=
    { network := sampleL2Network
    , signer := .byAddress (.jsonRpc "http://localhost:9547") "0xabc"
    , provider := .jsonRpc "http://localhost:9547" }
  , isConnectedToArbitrum := false }

/-- Sample app-state balances used to evaluate the withdrawal-card
balance computation. -/
def sampleBalances : BridgeBalances :=
  { eth := { balance := some 5 }
  , erc20 := fun tokenAddress =>
      if tokenAddress = "0xt1" then some { balance := some 7 } else none }

/-- Sample `arbTokenBridge` app-state object. -/
def sampleBridgeState : ArbTokenBridgeState :=
  { balances := some sampleBalances }

/-- Helper: upserting the same descriptor pair a second time changes
nothing. -/
theorem addCustomNetwork_absorb (reg : NetworkRegistry)
    (customL1Network : L1Network) (customL2Network : L2Network) :
    addCustomNetwork (addCustomNetwork reg customL1Network customL2Network)
        customL1Network customL2Network
      = addCustomNetwork reg customL1Network customL2Network := by
  unfold addCustomNetwork
  simp only [NetworkRegistry.mk.injEq]
  constructor
  · funext id
    by_cases h : id = customL1Network.chainID <;> simp [h]
  · funext id
    by_cases h : id = customL2Network.chainID <;> simp [h]

/-- C4: network registration is idempotent — for every (base, rollup)
descriptor pair, registering the pair twice leaves the registry in the
same state as registering it once; registration is total (never
fails) and keyed upserts cannot accumulate duplicate entries. -/
theorem addCustomNetwork_idempotent (reg : NetworkRegistry)
    (customL1Network : L1Network) (customL2Network : L2Network) :
    addCustomNetwork (addCustomNetwork reg customL1Network customL2Network)
        customL1Network customL2Network
      = addCustomNetwork reg customL1Network customL2Network :=
  addCustomNetwork_absorb reg customL1Network customL2Network

/-- C5 counterexample: in an environment where `window.web3` is
undefined, the initial status is `NOT_CONNECTED`, not `LOADING` — so
the initial status is not `loading` in every environment. -/
theorem defaultStatus_counterexample :
    defaultStatus true ≠ UseNetworksAndSignersStatus.LOADING := by
  decide

/-- C5 (amended): the initial resolution status is `LOADING` exactly
when an injected `window.web3` object is present; when `window.web3`
is undefined the very first status is already `NOT_CONNECTED`, before
any wallet state is known. -/
theorem defaultStatus_by_environment :
    defaultStatus false = UseNetworksAndSignersStatus.LOADING ∧
    defaultStatus true = UseNetworksAndSignersStatus.NOT_CONNECTED := by
  decide

/-- C8: `useNetworksAndSigners` called with no installed context value
throws (models as an error), never returning a default; inside the
provisioning scope it returns the installed connected result. -/
theorem useNetworksAndSigners_fail_fast :
    (∃ message, useNetworksAndSigners none = Except.error message) ∧
    ∀ value, useNetworksAndSigners (some value) = Except.ok value :=
  ⟨⟨_, rfl⟩, fun _ => rfl⟩

/-- C1 (code evaluated at the failing schedule): attempt 0 starts,
attempt 1 starts, attempt 1 completes publishing `NOT_CONNECTED`, then
the stale attempt 0 completes and — because no completion consults a
sequence number or latest-request marker — overwrites the published
result with its own `NOT_SUPPORTED`, which differs from attempt 1's
result. -/
theorem publishTrace_stale_completion_wins :
    publishTrace (.loadingOrError .LOADING)
        [ .start 0
        , .start 1
        , .complete 1 (.loadingOrError .NOT_CONNECTED)
        , .complete 0 (.loadingOrError .NOT_SUPPORTED) ]
      = .loadingOrError .NOT_SUPPORTED ∧
    UseNetworksAndSignersResult.loadingOrError .NOT_SUPPORTED ≠
      UseNetworksAndSignersResult.loadingOrError .NOT_CONNECTED := by
  exact ⟨rfl, by decide⟩

/-- C7: when the published result is `CONNECTED` and the wallet
account becomes absent, the disconnect effect publishes
`NOT_CONNECTED` at once and the resolution effect's guard is false, so
no new chain resolution (`update`) is attempted. -/
theorem disconnect_bypasses_resolution (provider : Option Provider)
    (account : Option String) (network : Option Nat)
    (result : UseNetworksAndSignersResult)
    (hconn : result.status = .CONNECTED) (haccount : account = none) :
    resetOnDisconnect account result = .loadingOrError .NOT_CONNECTED ∧
    updateEffectRuns provider account network = false := by
  constructor
  · unfold resetOnDisconnect
    rw [if_pos ⟨hconn, haccount⟩]
  · subst haccount
    unfold updateEffectRuns
    simp

/-- C7 witness: the disconnect theorem evaluated on a concrete
connected result with an absent account. -/
theorem disconnect_bypasses_resolution_witness :
    resetOnDisconnect none (.connected sampleConnectedPayload) =
      .loadingOrError .NOT_CONNECTED ∧
    updateEffectRuns none none none = false :=
  disconnect_bypasses_resolution none none none
    (.connected sampleConnectedPayload) rfl rfl

/-- C10: the balance shown by `WithdrawalCardExecuted` is the eth
balance when `tx.asset` is `'eth'`, the erc20 balance keyed by
`tx.tokenAddress` when the asset is not eth and a token address is
present, and null (rendering the spinner) when the token bridge object
or its balances field is absent or when the asset is not eth and
`tx.tokenAddress` is missing. -/
theorem withdrawalCardExecutedBalance_cases
    (arbTokenBridge : Option ArbTokenBridgeState) (tx : MergedTransaction) :
    (∀ bridge balances, arbTokenBridge = some bridge →
      bridge.balances = some balances →
      (tx.asset = "eth" →
        withdrawalCardExecutedBalance arbTokenBridge tx =
          balances.eth.balance) ∧
      (tx.asset ≠ "eth" → ∀ tokenAddress,
        tx.tokenAddress = some tokenAddress →
        withdrawalCardExecutedBalance arbTokenBridge tx =
          (balances.erc20 tokenAddress).bind (fun entry => entry.balance)) ∧
      (tx.asset ≠ "eth" → tx.tokenAddress = none →
        withdrawalCardExecutedBalance arbTokenBridge tx = none)) ∧
    ((arbTokenBridge = none ∨
        ∃ bridge, arbTokenBridge = some bridge ∧ bridge.balances = none) →
      withdrawalCardExecutedBalance arbTokenBridge tx = none) := by
  constructor
  · intro bridge balances hbridge hbalances
    subst hbridge
    refine ⟨?_, ?_, ?_⟩
    · intro heth
      simp [withdrawalCardExecutedBalance, hbalances, heth]
    · intro hne tokenAddress htoken
      simp [withdrawalCardExecutedBalance, hbalances, hne, htoken]
    · intro hne htoken
      simp [withdrawalCardExecutedBalance, hbalances, hne, htoken]
  · intro habsent
    rcases habsent with h | ⟨bridge, hbridge, hbalances⟩
    · subst h; rfl
    · subst hbridge
      simp [withdrawalCardExecutedBalance, hbalances]

/-- C10 witness: the balance cases evaluated on concrete app state —
an eth withdrawal shows the eth balance, a token withdrawal shows the
keyed erc20 balance, and an absent bridge object shows null. -/
theorem withdrawalCardExecutedBalance_cases_witness :
    withdrawalCardExecutedBalance (some sampleBridgeState)
        { asset := "eth", tokenAddress := none } = some 5 ∧
    withdrawalCardExecutedBalance (some sampleBridgeState)
        { asset := "usdc", tokenAddress := some "0xt1" } = some 7 ∧
    withdrawalCardExecutedBalance none
        { asset := "eth", tokenAddress := none } = none := by
  refine ⟨?_, ?_, ?_⟩
  · exact ((withdrawalCardExecutedBalance_cases (some sampleBridgeState)
      { asset := "eth", tokenAddress := none }).1 sampleBridgeState
      sampleBalances rfl rfl).1 rfl
  · exact ((withdrawalCardExecutedBalance_cases (some sampleBridgeState)
      { asset := "usdc", tokenAddress := some "0xt1" }).1 sampleBridgeState
      sampleBalances rfl rfl).2.1 (by decide) "0xt1" rfl
  · exact (withdrawalCardExecutedBalance_cases none
      { asset := "eth", tokenAddress := none }).2 (Or.inl rfl)

/-- Helper: when the base interpretation fails and the wallet's chain
id differs from the selected rollup id, `update` publishes
`NOT_SUPPORTED` and leaves the registry untouched. -/
theorem update_other_chain (env : Env) (reg : NetworkRegistry)
    (selectedL2ChainId chainId : Nat) (address : String)
    (hne : chainId ≠ selectedL2ChainId)
    (hbase : getL1Network reg chainId selectedL2ChainId = none) :
    update env reg (some selectedL2ChainId) chainId address =
      (reg, .loadingOrError .NOT_SUPPORTED) := by
  unfold update resolveSelectedL2ChainId
  dsimp only
  rw [hbase]
  dsimp only
  unfold updateCatchBranch
  rw [if_pos hne]

/-- Helper: the catch handler leaves the registry untouched or upserts
exactly the fixed local descriptor pair. -/
theorem updateCatchBranch_registry (env : Env) (reg : NetworkRegistry)
    (selectedL2ChainId providerChainId : Nat) (address : String) :
    (updateCatchBranch env reg selectedL2ChainId providerChainId address).1 = reg ∨
    (updateCatchBranch env reg selectedL2ChainId providerChainId address).1 =
      addCustomNetwork reg localEthNetwork localArbNetwork := by
  unfold updateCatchBranch
  dsimp only
  split <;> (try split) <;> (try split) <;>
    first | exact Or.inl rfl | exact Or.inr rfl

/-- Helper: every run of `update` leaves the registry untouched or
upserts exactly the fixed local descriptor pair, whatever the
inputs. -/
theorem update_registry_characterization (env : Env) (reg : NetworkRegistry)
    (selectedL2ChainId : Option Nat) (providerChainId : Nat)
    (address : String) :
    (update env reg selectedL2ChainId providerChainId address).1 = reg ∨
    (update env reg selectedL2ChainId providerChainId address).1 =
      addCustomNetwork reg localEthNetwork localArbNetwork := by
  unfold update
  dsimp only
  split
  · exact Or.inl rfl
  · split
    · split
      · exact Or.inr rfl
      · rcases updateCatchBranch_registry env
            (addCustomNetwork reg localEthNetwork localArbNetwork) _
            providerChainId address with h | h
        · exact Or.inr h
        · rw [addCustomNetwork_absorb] at h
          exact Or.inr h
    · exact updateCatchBranch_registry env reg _ providerChainId address

/-- C9: whichever branch of `update` runs, the registration performed
is never parameterized by the inputs — the registry is either left
untouched or upserted with exactly the fixed custom pair: base chain
id 1337 (EthLocal, partner 412346) and rollup chain id 412346
(ArbLocal, partner 1337). -/
theorem update_registers_fixed_pair (env : Env) (reg : NetworkRegistry)
    (selectedL2ChainId : Option Nat) (providerChainId : Nat)
    (address : String) :
    ((update env reg selectedL2ChainId providerChainId address).1 = reg ∨
     (update env reg selectedL2ChainId providerChainId address).1 =
       addCustomNetwork reg localEthNetwork localArbNetwork) ∧
    localEthNetwork.chainID = 1337 ∧
    localEthNetwork.name = "EthLocal" ∧
    localEthNetwork.partnerChainIDs = [412346] ∧
    localArbNetwork.chainID = 412346 ∧
    localArbNetwork.name = "ArbLocal" ∧
    localArbNetwork.partnerChainID = 1337 :=
  ⟨update_registry_characterization env reg selectedL2ChainId providerChainId
      address,
   rfl, rfl, rfl, rfl, rfl, rfl⟩

/-- Helper: the full result of `update` when the wallet reports the
base chain id of a registered pair whose rollup is the selected one
(the `.then` branch of part_000 lines 242-316). -/
theorem update_base_case (env : Env) (reg : NetworkRegistry)
    (l1Network : L1Network) (l2Network : L2Network) (address : String)
    (hl1 : reg.l1Networks l1Network.chainID = some l1Network)
    (hl2 : reg.l2Networks l2Network.chainID = some l2Network)
    (hpartner : l2Network.chainID ∈ l1Network.partnerChainIDs)
    (hfix2 : l2Network.chainID = 412346 → l2Network = localArbNetwork) :
    update env reg (some l2Network.chainID) l1Network.chainID address =
      (addCustomNetwork reg localEthNetwork localArbNetwork,
       .connected
        { l1 :=
          { network := l1Network
          , signer := .byIndex (.web3 l1Network.chainID) 0
          , provider := .jsonRpc (env.rpcURLs l1Network.chainID) }
        , l2 :=
          { network := l2Network
          , signer := .byAddress (.jsonRpc (env.rpcURLs l2Network.chainID))
              address
          , provider := .jsonRpc (env.rpcURLs l2Network.chainID) }
        , isConnectedToArbitrum := false }) := by
  have hA : getL1Network reg l1Network.chainID l2Network.chainID =
      some l1Network := by
    unfold getL1Network
    rw [hl1]
    dsimp only
    rw [if_pos hpartner]
  have hB : getL2Network (addCustomNetwork reg localEthNetwork localArbNetwork)
      l2Network.chainID = some l2Network := by
    unfold getL2Network addCustomNetwork
    dsimp only
    by_cases hc : l2Network.chainID = localArbNetwork.chainID
    · rw [if_pos hc, (hfix2 hc)]
    · rw [if_neg hc]
      exact hl2
  unfold update resolveSelectedL2ChainId
  dsimp only
  rw [hA]
  dsimp only
  rw [hB]

/-- Helper: the full result of `update` when the wallet reports the
selected rollup chain id itself (the `.catch` branch of part_000
lines 317-407). -/
theorem update_rollup_case (env : Env) (reg : NetworkRegistry)
    (l1Network : L1Network) (l2Network : L2Network) (address : String)
    (hl1 : reg.l1Networks l1Network.chainID = some l1Network)
    (hl2 : reg.l2Networks l2Network.chainID = some l2Network)
    (hpartner : l2Network.chainID ∈ l1Network.partnerChainIDs)
    (hpartnerBack : l2Network.partnerChainID = l1Network.chainID)
    (hdisj : reg.l1Networks l2Network.chainID = none)
    (hfix1 : l1Network.chainID = 1337 → l1Network = localEthNetwork)
    (hfix2 : l2Network.chainID = 412346 → l2Network = localArbNetwork) :
    update env reg (some l2Network.chainID) l2Network.chainID address =
      (addCustomNetwork reg localEthNetwork localArbNetwork,
       .connected
        { l1 :=
          { network := l1Network
          , signer := .byAddress (.jsonRpc (env.rpcURLs l1Network.chainID))
              address
          , provider := .jsonRpc (env.rpcURLs l1Network.chainID) }
        , l2 :=
          { network := l2Network
          , signer := .byIndex (.web3 l2Network.chainID) 0
          , provider := .jsonRpc (env.rpcURLs l2Network.chainID) }
        , isConnectedToArbitrum := true }) := by
  have hA : getL1Network reg l2Network.chainID l2Network.chainID = none := by
    unfold getL1Network
    rw [hdisj]
  have hB : getL2Network (addCustomNetwork reg localEthNetwork localArbNetwork)
      l2Network.chainID = some l2Network := by
    unfold getL2Network addCustomNetwork
    dsimp only
    by_cases hc : l2Network.chainID = localArbNetwork.chainID
    · rw [if_pos hc, (hfix2 hc)]
    · rw [if_neg hc]
      exact hl2
  have hC : getL1Network (addCustomNetwork reg localEthNetwork localArbNetwork)
      l2Network.partnerChainID l2Network.chainID = some l1Network := by
    unfold getL1Network addCustomNetwork
    dsimp only
    rw [hpartnerBack]
    by_cases h1337 : l1Network.chainID = localEthNetwork.chainID
    · rw [if_pos h1337]
      dsimp only
      have hLeq : l1Network = localEthNetwork := hfix1 h1337
      have hmem : l2Network.chainID ∈ localEthNetwork.partnerChainIDs := by
        rw [← hLeq]
        exact hpartner
      rw [if_pos hmem, hLeq]
    · rw [if_neg h1337, hl1]
      dsimp only
      rw [if_pos hpartner]
  unfold update resolveSelectedL2ChainId
  dsimp only
  rw [hA]
  dsimp only
  unfold updateCatchBranch
  rw [if_neg (not_not_intro rfl)]
  dsimp only
  rw [hB]
  dsimp only
  rw [hC]
  dsimp only
  rw [hpartnerBack]

/-- C2: with a supported (base, rollup) pair registered and uniquely
matched, requesting that rollup and resolving a wallet on the base
chain id publishes `CONNECTED` with `isConnectedToArbitrum = false`; a
wallet on the rollup chain id publishes `CONNECTED` with
`isConnectedToArbitrum = true`; a wallet on any other chain id
publishes `NOT_SUPPORTED`. -/
theorem update_orientation_by_active_chain (env : Env) (reg : NetworkRegistry)
    (l1Network : L1Network) (l2Network : L2Network) (address : String)
    (hl1 : reg.l1Networks l1Network.chainID = some l1Network)
    (hl2 : reg.l2Networks l2Network.chainID = some l2Network)
    (hpartner : l2Network.chainID ∈ l1Network.partnerChainIDs)
    (hpartnerBack : l2Network.partnerChainID = l1Network.chainID)
    (hdisj : reg.l1Networks l2Network.chainID = none)
    (hfix1 : l1Network.chainID = 1337 → l1Network = localEthNetwork)
    (hfix2 : l2Network.chainID = 412346 → l2Network = localArbNetwork)
    (huniq : ∀ chainId otherBase, reg.l1Networks chainId = some otherBase →
      l2Network.chainID ∈ otherBase.partnerChainIDs →
      chainId = l1Network.chainID) :
    ((update env reg (some l2Network.chainID) l1Network.chainID
        address).2.status = .CONNECTED ∧
     (update env reg (some l2Network.chainID) l1Network.chainID
        address).2.orientation = some false) ∧
    ((update env reg (some l2Network.chainID) l2Network.chainID
        address).2.status = .CONNECTED ∧
     (update env reg (some l2Network.chainID) l2Network.chainID
        address).2.orientation = some true) ∧
    (∀ chainId, chainId ≠ l1Network.chainID → chainId ≠ l2Network.chainID →
      (update env reg (some l2Network.chainID) chainId address).2 =
        .loadingOrError .NOT_SUPPORTED) := by
  refine ⟨?_, ?_, ?_⟩
  · rw [update_base_case env reg l1Network l2Network address hl1 hl2 hpartner
        hfix2]
    exact ⟨rfl, rfl⟩
  · rw [update_rollup_case env reg l1Network l2Network address hl1 hl2 hpartner
        hpartnerBack hdisj hfix1 hfix2]
    exact ⟨rfl, rfl⟩
  · intro chainId hc1 hc2
    have hbase : getL1Network reg chainId l2Network.chainID = none := by
      unfold getL1Network
      cases h : reg.l1Networks chainId with
      | none => rfl
      | some otherBase =>
          exact if_neg (fun hmem => hc1 (huniq chainId otherBase h hmem))
    rw [update_other_chain env reg l2Network.chainID chainId address hc2 hbase]

/-- C2 witness: the orientation theorem evaluated on the sample
registry — wallet on chain 1 resolves base-side, on chain 2
rollup-side, and on chain 5 not supported. -/
theorem update_orientation_by_active_chain_witness :
    (update sampleEnv sampleRegistry (some 2) 1 "0xabc").2.orientation =
      some false ∧
    (update sampleEnv sampleRegistry (some 2) 2 "0xabc").2.orientation =
      some true ∧
    (update sampleEnv sampleRegistry (some 2) 5 "0xabc").2 =
      .loadingOrError .NOT_SUPPORTED := by
  have h := update_orientation_by_active_chain sampleEnv sampleRegistry
    sampleL1Network sampleL2Network "0xabc" rfl rfl (by decide) rfl rfl
    (fun habs => absurd habs (by decide))
    (fun habs => absurd habs (by decide))
    (by
      intro chainId otherBase hreg hmem
      by_cases hc : chainId = 1
      · exact hc
      · simp [sampleRegistry, hc] at hreg)
  exact ⟨h.1.2, h.2.1.2, h.2.2 5 (by decide) (by decide)⟩

/-- C3: when the base-chain interpretation fails, a wallet whose
reported chain id differs from the requested rollup id is published as
`NOT_SUPPORTED` (never silently resolved to a different pair), and a
rollup-side connected result can only arise when the reported chain id
exactly equals the requested rollup id. -/
theorem rollup_fallback_strict_identifier (env : Env) (reg : NetworkRegistry)
    (selectedL2ChainId providerChainId : Nat) (address : String)
    (hbase : getL1Network reg providerChainId selectedL2ChainId = none) :
    (providerChainId ≠ selectedL2ChainId →
      (update env reg (some selectedL2ChainId) providerChainId address).2 =
        .loadingOrError .NOT_SUPPORTED) ∧
    ((update env reg (some selectedL2ChainId) providerChainId
        address).2.orientation = some true →
      providerChainId = selectedL2ChainId) := by
  constructor
  · intro hne
    rw [update_other_chain env reg selectedL2ChainId providerChainId address
        hne hbase]
  · intro hor
    by_cases heq : providerChainId = selectedL2ChainId
    · exact heq
    · rw [update_other_chain env reg selectedL2ChainId providerChainId address
          heq hbase] at hor
      simp [UseNetworksAndSignersResult.orientation] at hor

/-- C3 witness: a wallet on rollup chain 412346 while rollup 777 was
requested (and no base matches) is published as `NOT_SUPPORTED`. -/
theorem rollup_fallback_strict_identifier_witness :
    (update sampleEnv emptyRegistry (some 777) 412346 "0xabc").2 =
      .loadingOrError .NOT_SUPPORTED :=
  (rollup_fallback_strict_identifier sampleEnv emptyRegistry 777 412346 "0xabc"
      rfl).1 (by decide)

/-- C6: in a wallet-on-base resolution whose RPC endpoint map agrees
with the descriptors, the published pairing has a fresh direct-RPC
rollup provider built from the rollup descriptor's endpoint, a rollup
signer derived from that provider keyed by the wallet address, a base
signer that is the wallet connection's own signer at index 0, and a
base provider that is a fresh direct-RPC provider built from the base
descriptor's endpoint — never the wallet's own provider. -/
theorem update_base_materialization (env : Env) (reg : NetworkRegistry)
    (l1Network : L1Network) (l2Network : L2Network) (address : String)
    (hl1 : reg.l1Networks l1Network.chainID = some l1Network)
    (hl2 : reg.l2Networks l2Network.chainID = some l2Network)
    (hpartner : l2Network.chainID ∈ l1Network.partnerChainIDs)
    (hfix2 : l2Network.chainID = 412346 → l2Network = localArbNetwork)
    (hrpcL1 : env.rpcURLs l1Network.chainID = l1Network.rpcURL)
    (hrpcL2 : env.rpcURLs l2Network.chainID = l2Network.rpcURL) :
    ∃ payload,
      (update env reg (some l2Network.chainID) l1Network.chainID address).2 =
        .connected payload ∧
      payload.isConnectedToArbitrum = false ∧
      payload.l2.provider = .jsonRpc l2Network.rpcURL ∧
      payload.l2.signer = .byAddress (.jsonRpc l2Network.rpcURL) address ∧
      payload.l1.signer = .byIndex (.web3 l1Network.chainID) 0 ∧
      payload.l1.provider = .jsonRpc l1Network.rpcURL ∧
      ∀ chainId, payload.l1.provider ≠ .web3 chainId := by
  rw [update_base_case env reg l1Network l2Network address hl1 hl2 hpartner
      hfix2]
  refine ⟨_, rfl, rfl, ?_, ?_, rfl, ?_, ?_⟩
  · exact congrArg Provider.jsonRpc hrpcL2
  · exact congrArg (fun url => Signer.byAddress (.jsonRpc url) address) hrpcL2
  · exact congrArg Provider.jsonRpc hrpcL1
  · intro chainId habs
    exact Provider.noConfusion habs

/-- C6 witness: the materialization theorem evaluated on the sample
pair — the concrete providers and signers of the published pairing. -/
theorem update_base_materialization_witness :
    ∃ payload,
      (update sampleEnv sampleRegistry (some 2) 1 "0xabc").2 =
        .connected payload ∧
      payload.isConnectedToArbitrum = false ∧
      payload.l2.provider = .jsonRpc "http://localhost:9547" ∧
      payload.l2.signer = .byAddress (.jsonRpc "http://localhost:9547")
        "0xabc" ∧
      payload.l1.signer = .byIndex (.web3 1) 0 ∧
      payload.l1.provider = .jsonRpc "http://localhost:9545" ∧
      ∀ chainId, payload.l1.provider ≠ .web3 chainId :=
  update_base_materialization sampleEnv sampleRegistry sampleL1Network
    sampleL2Network "0xabc" rfl rfl (by decide)
    (fun habs => absurd habs (by decide)) rfl rfl

end ArbTokenBridge
